import Mathlib

set_option maxRecDepth 100000

/-!
Shallow embedding of the multi-agent collaboration system
(`orchestrator.py`, `agents.py`, `tools.py`, `main.py`).

Strings are Lean `String`s (a wrapper around `List Char`); the Python
string methods used by the source (`lower`, `upper`, `strip`,
`startswith`, `in`, `replace`, slicing) are embedded as char-list
functions below.  Agent backends are modelled as opaque functions
`task → boardText → answer` (the Orchestrator is agnostic to the
backend); calls to the external calendar collaborators are recorded in
an explicit event trace.
-/

/-- Python `str.lower` (ASCII case mapping, as used by the source). -/
def pyLower (s : String) : String := ⟨s.data.map Char.toLower⟩

/-- Python `str.upper`. -/
def pyUpper (s : String) : String := ⟨s.data.map Char.toUpper⟩

/-- Whitespace characters removed by Python `str.strip()`. -/
def pyIsSpace (c : Char) : Bool :=
  c == ' ' || c == '\t' || c == '\n' || c == '\r' || c == '\x0b' || c == '\x0c'

/-- Python `str.strip()`: drop whitespace from both ends. -/
def pyStrip (s : String) : String :=
  ⟨((s.data.dropWhile pyIsSpace).reverse.dropWhile pyIsSpace).reverse⟩

/-- Does the list `s` begin with the list `pat`? (Python `str.startswith`.) -/
def leadsWith : List Char → List Char → Bool
  | [], _ => true
  | _ :: _, [] => false
  | p :: ps, c :: cs => p == c && leadsWith ps cs

/-- Python `s.startswith(pat)`. -/
def startsWithStr (s pat : String) : Bool := leadsWith pat.data s.data

/-- Does `pat` occur as a contiguous sublist? (Python `pat in s`.) -/
def containsChars (pat : List Char) : List Char → Bool
  | [] => pat.isEmpty
  | c :: rest => leadsWith pat (c :: rest) || containsChars pat rest

/-- Python `pat in s` for strings. -/
def containsStr (s pat : String) : Bool := containsChars pat.data s.data

/-- Replace every (leftmost, non-overlapping) occurrence of `pat` by `rep`,
scanning left to right; `fuel` bounds the recursion and is instantiated
with the length of the subject, which suffices because every step of the
scan consumes at least one character when `pat` is nonempty (the only use
in the source has `pat = "CONCLUSION:"`). -/
def replChars (pat rep : List Char) : Nat → List Char → List Char
  | _, [] => []
  | 0, s => s
  | fuel + 1, c :: cs =>
      if leadsWith pat (c :: cs) then
        rep ++ replChars pat rep fuel (List.drop pat.length (c :: cs))
      else c :: replChars pat rep fuel cs

/-- Python `s.replace(pat, rep)` (all occurrences, case-sensitive). -/
def pyReplace (s pat rep : String) : String :=
  ⟨replChars pat.data rep.data s.data.length s.data⟩

/-- Python `s[:n]` (first `n` characters). -/
def pyTake (s : String) (n : Nat) : String := ⟨s.data.take n⟩

/-- Lexicographic comparison of char lists by code point, the order Python's
`sorted` uses on strings. -/
def leLex : List Char → List Char → Bool
  | [], _ => true
  | _ :: _, [] => false
  | a :: as, b :: bs =>
      if a.toNat = b.toNat then leLex as bs
      else decide (a.toNat < b.toNat)

/-- Lexicographic `≤` on strings, by code point. -/
def strLe (s t : String) : Bool := leLex s.data t.data

/-- One agent's output plus metadata (`Contribution` dataclass). -/
structure Contribution where
  role : String
  answer : String
  confidence : ℚ
  rationale : String
  iteration : Nat
deriving Repr, DecidableEq

/-- The `contributions` table of `HistoryStore`, in insertion (ascending id)
order.  The sqlite table assigns consecutive autoincrement ids, so the rows
ordered by id form exactly this list. -/
abbrev HistoryStore := List Contribution

/-- `HistoryStore.log`: INSERT one row. -/
def HistoryStore.log (s : HistoryStore) (c : Contribution) : HistoryStore := s ++ [c]

/-- `HistoryStore.latest`: SELECT ... ORDER BY id DESC LIMIT `limit`. -/
def HistoryStore.latest (s : HistoryStore) (limit : Nat) : List Contribution :=
  s.reverse.take limit

/-- `Orchestrator.board`: a dict from `"{role}-r{iteration}"` keys to the
stored contribution, modelled as an association list with distinct keys. -/
abbrev Board := List (String × Contribution)

/-- Dict assignment `board[k] = c` (insert or overwrite). -/
def boardPut (b : Board) (k : String) (c : Contribution) : Board :=
  (b.filter (fun p => !(p.1 == k))) ++ [(k, c)]

/-- The dict's key set, in insertion order. -/
def boardKeys (b : Board) : List String := b.map (·.1)

/-- Dict lookup `board[k]` (the source only looks up present keys). -/
def boardGet (b : Board) (k : String) : Contribution :=
  ((b.find? (fun p => p.1 == k)).getD (k, ⟨"", "", 0, "", 0⟩)).2

/-- Python `sorted(keys)`. -/
def sortKeys (ks : List String) : List String :=
  List.insertionSort (fun s t => strLe s t = true) ks

/-- `Orchestrator._board_text`. -/
def board_text (b : Board) : String :=
  if b.isEmpty then "(empty)"
  else String.intercalate "\n\n" ((sortKeys (boardKeys b)).map
    (fun k => "--- Contribution from " ++ k ++ " ---\n" ++ (boardGet b k).answer))

/-- An agent backend: `generate(task, board_text) -> text`. -/
abbrev AgentFn := String → String → String

/-- The Orchestrator's mutable state relevant to the claims: the in-memory
board and the durable store contents. -/
structure OrchState where
  board : Board
  store : HistoryStore
deriving Repr, DecidableEq

/-- `Orchestrator.__init__`: `self.board = {}`, with the given store. -/
def Orchestrator.mkState (store : HistoryStore) : OrchState := ⟨[], store⟩

/-- Body of the inner `for role, agent in self.agents.items()` loop of
`run_research_collaboration`: generate, log to the store, put on the board. -/
def agentStep (task : String) (r : Nat) (st : OrchState)
    (role : String) (agent : AgentFn) : OrchState :=
  let output := agent task (board_text st.board)
  let contrib : Contribution := ⟨role, output, 0.8, "generated", r⟩
  ⟨boardPut st.board (role ++ "-r" ++ toString r) contrib, st.store.log contrib⟩

/-- One round of `run_research_collaboration`: every non-moderator agent in
registration order, then the moderator; returns the new state and the
moderator's output. -/
def roundStep (agents : List (String × AgentFn)) (moderator : AgentFn)
    (task : String) (r : Nat) (st : OrchState) : OrchState × String :=
  let st1 := agents.foldl (fun s p => agentStep task r s p.1 p.2) st
  let mod_output := moderator task (board_text st1.board)
  let contrib : Contribution := ⟨"Moderator", mod_output, 0.9, "review", r⟩
  (⟨boardPut st1.board ("Moderator-r" ++ toString r) contrib,
    st1.store.log contrib⟩, mod_output)

/-- The termination test of line 129:
`mod_output.strip().upper().startswith("CONCLUSION:")`. -/
def isConclusion (s : String) : Bool :=
  startsWithStr (pyUpper (pyStrip s)) "CONCLUSION:"

/-- The `for r in range(1, self.rounds + 1)` loop of
`run_research_collaboration`, with `r` the current round number and the
second argument the number of rounds still allowed. -/
def researchLoop (agents : List (String × AgentFn)) (moderator : AgentFn)
    (task : String) : Nat → Nat → OrchState → OrchState × String
  | _, 0, st => (st, "No conclusion reached after maximum rounds.")
  | r, n + 1, st =>
      let p := roundStep agents moderator task r st
      if isConclusion p.2 then (p.1, pyStrip (pyReplace p.2 "CONCLUSION:" ""))
      else researchLoop agents moderator task (r + 1) n p.1

/-- `Orchestrator.run_research_collaboration`, parameterised by the agent
backends (the source binds either `FakeLLM` or `HuggingFaceAgent` instances
depending on `use_hf`); returns the final state and the final report. -/
def run_research_collaboration (agents : List (String × AgentFn))
    (moderator : AgentFn) (rounds : Nat) (task : String) (st : OrchState) :
    OrchState × String :=
  researchLoop agents moderator task 1 rounds st

/-- `FakeLLM.generate`: the deterministic rule-based backend. -/
def FakeLLM.generate (role : String) (task : String) (board : String) : String :=
  let task_lower := pyLower task
  let context := if board == "" || board == "(empty)" then task else board
  if role == "ResearchBot" then
    if containsStr task_lower "capital of france" then
      "Paris is the capital of France, known for the Eiffel Tower."
    else if containsStr task_lower "capital of india" then
      "New Delhi"
    else "(fact guess about: " ++ pyTake task 40 ++ "...)"
  else if role == "CreativeBot" then
    "A whimsical story about: " ++ context
  else if role == "AnalysisBot" then
    "Key points from the board: " ++ pyTake context 60
  else if role == "Moderator" then
    if containsStr context "Paris" || containsStr context "New Delhi" then
      "CONCLUSION: The report is complete."
    else
      "NEXT_STEP: The research is incomplete."
  else "Unhandled role " ++ role

/-- The rule-based agent set bound by `run_research_collaboration` when
`use_hf` is false, in registration order. -/
def fakeAgents : List (String × AgentFn) :=
  [("ResearchBot", FakeLLM.generate "ResearchBot"),
   ("CreativeBot", FakeLLM.generate "CreativeBot"),
   ("AnalysisBot", FakeLLM.generate "AnalysisBot")]

/-- The rule-based moderator. -/
def fakeModerator : AgentFn := FakeLLM.generate "Moderator"

/-- An external collaborator call made by the schedule workflow. -/
inductive ExtCall where
  | findSlot (duration_minutes : Nat)
  | book (time_slot title descr : String)
deriving DecidableEq, Repr

/-- `tools.book_calendar_event`: the simulated booking API, which always
reports success. -/
def book_calendar_event (time_slot title descr : String) : Bool := true

/-- Lines 166-188 of `run_schedule_optimization`: keyword test, title
derivation, collaborator calls, and report composition.  `findSlot` is the
external slot-finder's return value (it depends on the wall clock) and
`book` the booking collaborator; the returned list records the external
calls made. -/
def scheduleDecision (findSlot : Nat → String)
    (book : String → String → String → Bool)
    (summary action_items : String) : String × List ExtCall :=
  let action_lower := pyLower action_items
  if containsStr action_lower "schedule" || containsStr action_lower "finalize"
      || containsStr action_lower "review" then
    let meeting_title :=
      if containsStr action_lower "budget" then "Finalize Q4 Budget"
      else if containsStr action_lower "report" then "Review Detailed Report"
      else "General Follow-up Meeting"
    let follow_up_time := findSlot 45
    let descr := "Follow-up based on meeting summary: " ++ summary
    let success := book follow_up_time meeting_title descr
    (if success then
       "SUCCESS: Follow-up meeting '" ++ meeting_title ++ "' scheduled for "
         ++ follow_up_time ++ "."
     else "FAILURE: Could not schedule the meeting.",
     [ExtCall.findSlot 45, ExtCall.book follow_up_time meeting_title descr])
  else ("CONCLUSION: No specific scheduling action item was identified.", [])

/-- Result of the schedule workflow: final state, final report text, and
the trace of external collaborator calls. -/
structure ScheduleResult where
  state : OrchState
  report : String
  calls : List ExtCall
deriving Repr, DecidableEq

/-- `Orchestrator.run_schedule_optimization`, parameterised by the two
agent backends (bound to `HuggingFaceAgent`s in the source) and the two
external calendar collaborators. -/
def run_schedule_optimization (summarizer extractor : AgentFn)
    (findSlot : Nat → String) (book : String → String → String → Bool)
    (transcript : String) (st : OrchState) : ScheduleResult :=
  let task := "Analyze the following transcript, summarize it, and extract the key action item. Transcript:\n" ++ transcript
  let summary := summarizer task transcript
  let c1 : Contribution := ⟨"TranscriptSummarizer", summary, 0.8, "generated", 1⟩
  let st1 : OrchState := ⟨boardPut st.board "TranscriptSummarizer-r1" c1, st.store.log c1⟩
  let action_item_task := "Based on the transcript and summary, what is the single most important follow-up action item that requires scheduling? Respond with only the action itself."
  let action_items := extractor action_item_task (board_text st1.board)
  let c2 : Contribution := ⟨"ActionItemExtractor", action_items, 0.8, "generated", 1⟩
  let st2 : OrchState := ⟨boardPut st1.board "ActionItemExtractor-r1" c2, st1.store.log c2⟩
  let p := scheduleDecision findSlot book summary action_items
  let c3 : Contribution := ⟨"Moderator", p.1, 0.9, "conclusion", 1⟩
  ⟨⟨st2.board, st2.store.log c3⟩, p.1, p.2⟩

/-- `main.run_research_demo` / the test entry points: each constructs a
fresh `Orchestrator` (whose board starts empty) around a store and invokes
the research workflow on it. -/
def run_research_demo (agents : List (String × AgentFn)) (moderator : AgentFn)
    (rounds : Nat) (topic : String) (store : HistoryStore) : OrchState × String :=
  run_research_collaboration agents moderator rounds topic (Orchestrator.mkState store)

/-- The invariant relating board and store: every contribution currently held
on the board has already been appended to the history store. -/
def StoreCovers (st : OrchState) : Prop := ∀ p ∈ st.board, p.2 ∈ st.store

/-- The final-report transformation exactly as the specification words it:
the moderator text with the `"CONCLUSION:"` prefix stripped and surrounding
whitespace trimmed.  Stated for comparison against the source behaviour,
which is `pyStrip (pyReplace s "CONCLUSION:" "")`. -/
def specStripConclusion (s : String) : String :=
  pyStrip ⟨(pyStrip s).data.drop "CONCLUSION:".data.length⟩

/-! ### The lexicographic key order is total, transitive and antisymmetric -/

theorem leLex_total : ∀ a b : List Char, leLex a b = true ∨ leLex b a = true
  | [], _ => Or.inl rfl
  | _ :: _, [] => Or.inr rfl
  | a :: as, b :: bs => by
      by_cases h : a.toNat = b.toNat
      · rcases leLex_total as bs with h1 | h1
        · exact Or.inl (by simp [leLex, h, h1])
        · exact Or.inr (by simp [leLex, h.symm, h1])
      · have h' : ¬ (b.toNat = a.toNat) := fun e => h e.symm
        rcases Nat.lt_or_ge a.toNat b.toNat with hlt | hge
        · exact Or.inl (by simp [leLex, h, hlt])
        · have hlt : b.toNat < a.toNat := lt_of_le_of_ne hge h'
          exact Or.inr (by simp [leLex, h', hlt])

theorem leLex_trans : ∀ a b c : List Char,
    leLex a b = true → leLex b c = true → leLex a c = true
  | [], _, _, _, _ => rfl
  | _ :: _, [], _, h1, _ => by simp [leLex] at h1
  | _ :: _, _ :: _, [], _, h2 => by simp [leLex] at h2
  | a :: as, b :: bs, c :: cs, h1, h2 => by
      simp only [leLex] at h1 h2 ⊢
      by_cases hab : a.toNat = b.toNat
      · rw [if_pos hab] at h1
        by_cases hbc : b.toNat = c.toNat
        · rw [if_pos hbc] at h2
          rw [if_pos (hab.trans hbc)]
          exact leLex_trans as bs cs h1 h2
        · rw [if_neg hbc] at h2
          have hlt2 : b.toNat < c.toNat := of_decide_eq_true h2
          have hlt : a.toNat < c.toNat := by omega
          rw [if_neg (Nat.ne_of_lt hlt)]
          exact decide_eq_true hlt
      · rw [if_neg hab] at h1
        have hlt1 : a.toNat < b.toNat := of_decide_eq_true h1
        by_cases hbc : b.toNat = c.toNat
        · have hlt : a.toNat < c.toNat := by omega
          rw [if_neg (Nat.ne_of_lt hlt)]
          exact decide_eq_true hlt
        · rw [if_neg hbc] at h2
          have hlt2 : b.toNat < c.toNat := of_decide_eq_true h2
          have hlt : a.toNat < c.toNat := by omega
          rw [if_neg (Nat.ne_of_lt hlt)]
          exact decide_eq_true hlt

theorem leLex_antisymm : ∀ a b : List Char,
    leLex a b = true → leLex b a = true → a = b
  | [], [], _, _ => rfl
  | [], _ :: _, _, h2 => by simp [leLex] at h2
  | _ :: _, [], h1, _ => by simp [leLex] at h1
  | a :: as, b :: bs, h1, h2 => by
      simp only [leLex] at h1 h2
      by_cases hab : a.toNat = b.toNat
      · rw [if_pos hab] at h1
        rw [if_pos hab.symm] at h2
        have hval : a.val.toNat = b.val.toNat := hab
        have hc : a = b := Char.ext (UInt32.ext hval)
        rw [hc, leLex_antisymm as bs h1 h2]
      · rw [if_neg hab] at h1
        have h1' : a.toNat < b.toNat := of_decide_eq_true h1
        rw [if_neg (fun e => hab e.symm)] at h2
        have h2' : b.toNat < a.toNat := of_decide_eq_true h2
        omega

theorem strLe_total (s t : String) : strLe s t = true ∨ strLe t s = true :=
  leLex_total s.data t.data

theorem strLe_trans {s t u : String} (h1 : strLe s t = true)
    (h2 : strLe t u = true) : strLe s u = true :=
  leLex_trans s.data t.data u.data h1 h2

theorem strLe_antisymm {s t : String} (h1 : strLe s t = true)
    (h2 : strLe t s = true) : s = t :=
  String.ext (leLex_antisymm s.data t.data h1 h2)

/-! ### Sorting the board keys -/

theorem sortKeys_perm (ks : List String) : List.Perm (sortKeys ks) ks :=
  List.perm_insertionSort _ ks

theorem sortKeys_sorted (ks : List String) :
    List.Sorted (fun s t => strLe s t = true) (sortKeys ks) := by
  haveI : IsTotal String (fun s t => strLe s t = true) := ⟨strLe_total⟩
  haveI : IsTrans String (fun s t => strLe s t = true) :=
    ⟨fun _ _ _ h1 h2 => strLe_trans h1 h2⟩
  exact List.sorted_insertionSort _ ks

theorem sortKeys_eq_of_perm {ks1 ks2 : List String} (h : List.Perm ks1 ks2) :
    sortKeys ks1 = sortKeys ks2 := by
  haveI : IsAntisymm String (fun s t => strLe s t = true) :=
    ⟨fun _ _ h1 h2 => strLe_antisymm h1 h2⟩
  exact List.eq_of_perm_of_sorted
    ((sortKeys_perm ks1).trans (h.trans (sortKeys_perm ks2).symm))
    (sortKeys_sorted ks1) (sortKeys_sorted ks2)

/-- C3: for every sequence of contributions appended to the History Store and
every n, `latest n` returns the last `min n total` appended records in
reverse insertion order (most recent first); `latest 0` is empty; and right
after `log c`, `latest 1` returns exactly the record `c`. -/
theorem history_store_latest (s : HistoryStore) (n : Nat) (c : Contribution) :
    HistoryStore.latest s n = (s.drop (s.length - n)).reverse
  ∧ (HistoryStore.latest s n).length = min n s.length
  ∧ HistoryStore.latest s 0 = []
  ∧ HistoryStore.latest (s.log c) 1 = [c] := by
  refine ⟨?_, ?_, rfl, ?_⟩
  · simp [HistoryStore.latest, List.take_reverse]
  · simp [HistoryStore.latest]
  · simp [HistoryStore.latest, HistoryStore.log]

/-- C4: board rendering is a deterministic function of the key-to-contribution
mapping; the empty board renders as the fixed sentinel, a non-empty board
renders one block per key in ascending lexicographic key order, blocks
separated by a blank line. -/
theorem board_render_deterministic (b1 b2 : Board)
    (hkeys : List.Perm (boardKeys b1) (boardKeys b2))
    (hget : ∀ k, boardGet b1 k = boardGet b2 k) :
    board_text ([] : Board) = "(empty)"
  ∧ List.Sorted (fun s t => strLe s t = true) (sortKeys (boardKeys b1))
  ∧ List.Perm (sortKeys (boardKeys b1)) (boardKeys b1)
  ∧ board_text b1 = board_text b2
  ∧ (b1.isEmpty = false →
      board_text b1 = String.intercalate "\n\n" ((sortKeys (boardKeys b1)).map
        (fun k => "--- Contribution from " ++ k ++ " ---\n" ++ (boardGet b1 k).answer))) := by
  refine ⟨rfl, sortKeys_sorted _, sortKeys_perm _, ?_, ?_⟩
  · have hs : sortKeys (boardKeys b1) = sortKeys (boardKeys b2) :=
      sortKeys_eq_of_perm hkeys
    have hlen : b1.length = b2.length := by
      have := hkeys.length_eq
      simpa [boardKeys] using this
    have hempty : b1.isEmpty = b2.isEmpty := by
      cases b1 <;> cases b2 <;> simp_all
    simp only [board_text, hempty, hs, hget]
  · intro he
    simp [board_text, he]

/-- Witness for C4: a concrete two-key board rendered with the "A-r1" block
before the "B-r1" block. -/
theorem board_render_deterministic_witness :
    board_text [("B-r1", ⟨"B", "bbb", 0.8, "generated", 1⟩),
                ("A-r1", ⟨"A", "aaa", 0.8, "generated", 1⟩)]
      = "--- Contribution from A-r1 ---\naaa\n\n--- Contribution from B-r1 ---\nbbb" := by
  have h := (board_render_deterministic
      [("B-r1", ⟨"B", "bbb", 0.8, "generated", 1⟩),
       ("A-r1", ⟨"A", "aaa", 0.8, "generated", 1⟩)]
      [("B-r1", ⟨"B", "bbb", 0.8, "generated", 1⟩),
       ("A-r1", ⟨"A", "aaa", 0.8, "generated", 1⟩)]
      (List.Perm.refl _) (fun _ => rfl)).2.2.2.2 (by decide)
  rw [h]
  decide

/-! ### Store bookkeeping helpers for the research loop -/

theorem agentStep_store (task : String) (r : Nat) (st : OrchState)
    (role : String) (agent : AgentFn) :
    (agentStep task r st role agent).store
      = st.store ++ [⟨role, agent task (board_text st.board), 0.8, "generated", r⟩] := rfl

theorem foldl_agents_store_length (task : String) (r : Nat) :
    ∀ (agents : List (String × AgentFn)) (st : OrchState),
      (agents.foldl (fun s p => agentStep task r s p.1 p.2) st).store.length
        = st.store.length + agents.length
  | [], _ => by simp
  | p :: ps, st => by
      have ih := foldl_agents_store_length task r ps (agentStep task r st p.1 p.2)
      simp only [List.foldl_cons]
      rw [ih, agentStep_store]
      simp
      omega

theorem roundStep_store_length (agents : List (String × AgentFn))
    (moderator : AgentFn) (task : String) (r : Nat) (st : OrchState) :
    (roundStep agents moderator task r st).1.store.length
      = st.store.length + (agents.length + 1) := by
  have h := foldl_agents_store_length task r agents st
  simp only [roundStep, HistoryStore.log]
  simp [h]
  omega

theorem foldl_agents_store_mono (task : String) (r : Nat) :
    ∀ (agents : List (String × AgentFn)) (st : OrchState),
      ∃ tail, (agents.foldl (fun s p => agentStep task r s p.1 p.2) st).store
        = st.store ++ tail
  | [], st => ⟨[], by simp⟩
  | p :: ps, st => by
      obtain ⟨t, ht⟩ := foldl_agents_store_mono task r ps (agentStep task r st p.1 p.2)
      refine ⟨[⟨p.1, p.2 task (board_text st.board), 0.8, "generated", r⟩] ++ t, ?_⟩
      simp only [List.foldl_cons]
      rw [ht, agentStep_store, List.append_assoc]

theorem roundStep_store_eq (agents : List (String × AgentFn)) (moderator : AgentFn)
    (task : String) (r : Nat) (st : OrchState) :
    (roundStep agents moderator task r st).1.store
      = (agents.foldl (fun s p => agentStep task r s p.1 p.2) st).store
        ++ [⟨"Moderator",
             moderator task
               (board_text (agents.foldl (fun s p => agentStep task r s p.1 p.2) st).board),
             0.9, "review", r⟩] := rfl

theorem researchLoop_store_mono (agents : List (String × AgentFn))
    (moderator : AgentFn) (task : String) :
    ∀ (n r : Nat) (st : OrchState),
      ∃ tail, (researchLoop agents moderator task r n st).1.store = st.store ++ tail
  | 0, _, st => ⟨[], by simp [researchLoop]⟩
  | n + 1, r, st => by
      obtain ⟨t0, ht0⟩ := foldl_agents_store_mono task r agents st
      have hr := roundStep_store_eq agents moderator task r st
      rw [ht0, List.append_assoc] at hr
      cases hc : isConclusion (roundStep agents moderator task r st).2 with
      | true =>
          exact ⟨_, by simp only [researchLoop, hc, if_true]; exact hr⟩
      | false =>
          obtain ⟨t2, ht2⟩ := researchLoop_store_mono agents moderator task n (r + 1)
            (roundStep agents moderator task r st).1
          exact ⟨_, by
            simp only [researchLoop, hc, Bool.false_eq_true, if_false]
            rw [ht2, hr, List.append_assoc]⟩

/-- C1 (amended): in each round, if the moderator's answer passes the
trimmed, case-normalised CONCLUSION test the loop stops at that round and
the final report is the moderator's answer with every exact-case occurrence
of `"CONCLUSION:"` removed and the result trimmed; otherwise the loop
proceeds to round r+1 on the updated state. -/
theorem research_conclusion_step (agents : List (String × AgentFn))
    (moderator : AgentFn) (task : String) (r n : Nat) (st : OrchState) :
    (isConclusion (roundStep agents moderator task r st).2 = true →
       researchLoop agents moderator task r (n + 1) st
         = ((roundStep agents moderator task r st).1,
            pyStrip (pyReplace (roundStep agents moderator task r st).2 "CONCLUSION:" "")))
  ∧ (isConclusion (roundStep agents moderator task r st).2 = false →
       researchLoop agents moderator task r (n + 1) st
         = researchLoop agents moderator task (r + 1) n
             (roundStep agents moderator task r st).1)
  ∧ run_research_collaboration agents moderator (n + 1) task st
      = researchLoop agents moderator task 1 (n + 1) st := by
  refine ⟨?_, ?_, rfl⟩
  · intro h
    simp [researchLoop, h]
  · intro h
    simp [researchLoop, h]

/-- Witness for C1: a conclusion-prefixed moderator answer stops the loop in
round 1 with the prefix removed and the report trimmed. -/
theorem research_conclusion_step_witness :
    (researchLoop [] (fun _ _ => "CONCLUSION: done") "t" 1 (0 + 1) ⟨[], []⟩).2 = "done" := by
  have h := (research_conclusion_step [] (fun _ _ => "CONCLUSION: done") "t" 1 0 ⟨[], []⟩).1
    (by decide)
  rw [h]
  decide

/-- Counterexample for C1 as stated: a moderator answer that passes the
case-normalised test but is not literally prefixed by `"CONCLUSION:"` is
returned unchanged, not with the prefix stripped. -/
theorem research_conclusion_report_cex :
    isConclusion "conclusion: x" = true
  ∧ (run_research_collaboration [] (fun _ _ => "conclusion: x") 3 "t" ⟨[], []⟩).2
      = "conclusion: x"
  ∧ specStripConclusion "conclusion: x" = "x"
  ∧ ("conclusion: x" : String) ≠ "x" := by
  refine ⟨by decide, by decide, by decide, by decide⟩

theorem researchLoop_no_conclusion (agents : List (String × AgentFn))
    (moderator : AgentFn) (task : String)
    (hm : ∀ t b, isConclusion (moderator t b) = false) :
    ∀ (n r : Nat) (st : OrchState),
      (researchLoop agents moderator task r n st).2
        = "No conclusion reached after maximum rounds."
    ∧ (researchLoop agents moderator task r n st).1.store.length
        = st.store.length + n * (agents.length + 1)
  | 0, _, st => ⟨rfl, by simp [researchLoop]⟩
  | n + 1, r, st => by
      have hmod : isConclusion (roundStep agents moderator task r st).2 = false := hm _ _
      obtain ⟨ih1, ih2⟩ := researchLoop_no_conclusion agents moderator task hm n (r + 1)
        (roundStep agents moderator task r st).1
      constructor
      · simp only [researchLoop, hmod, Bool.false_eq_true, if_false]
        exact ih1
      · simp only [researchLoop, hmod, Bool.false_eq_true, if_false]
        rw [ih2, roundStep_store_length]
        ring

/-- C2: with a moderator that never produces a CONCLUSION-prefixed answer,
the research workflow performs exactly N rounds — each appending one
contribution per non-moderator agent plus one moderator contribution to the
store — and returns the fixed fallback report; with rounds = 0 the loop body
never runs and the fallback is returned on the unchanged state. -/
theorem round_budget_termination (agents : List (String × AgentFn))
    (moderator : AgentFn) (N : Nat) (task : String) (st : OrchState)
    (hm : ∀ t b, isConclusion (moderator t b) = false) :
    (run_research_collaboration agents moderator N task st).2
      = "No conclusion reached after maximum rounds."
  ∧ (run_research_collaboration agents moderator N task st).1.store.length
      = st.store.length + N * (agents.length + 1)
  ∧ (∀ (r : Nat) (st' : OrchState),
      (roundStep agents moderator task r st').1.store.length
        = st'.store.length + (agents.length + 1))
  ∧ run_research_collaboration agents moderator 0 task st
      = (st, "No conclusion reached after maximum rounds.") := by
  obtain ⟨h1, h2⟩ := researchLoop_no_conclusion agents moderator task hm N 1 st
  exact ⟨h1, h2, fun r st' => roundStep_store_length agents moderator task r st', rfl⟩

/-- Witness for C2: a constant NEXT_STEP moderator with one fake agent runs
both rounds and falls back. -/
theorem round_budget_termination_witness :
    (run_research_collaboration [("A", (fun _ _ => "a"))] (fun _ _ => "NEXT_STEP: more")
        2 "t" ⟨[], []⟩).2 = "No conclusion reached after maximum rounds."
  ∧ (run_research_collaboration [("A", (fun _ _ => "a"))] (fun _ _ => "NEXT_STEP: more")
        2 "t" ⟨[], []⟩).1.store.length
      = (OrchState.mk [] []).store.length
          + 2 * (([("A", (fun _ _ => "a"))] : List (String × AgentFn)).length + 1) := by
  have h := round_budget_termination [("A", (fun _ _ => "a"))]
    (fun _ _ => "NEXT_STEP: more") 2 "t" ⟨[], []⟩
    (fun _ _ => by show isConclusion "NEXT_STEP: more" = false; decide)
  exact ⟨h.1, h.2.1⟩

/-- C9: the Orchestrator constructor starts with an empty board, which
renders as the `"(empty)"` sentinel, and in a demo invocation (which always
builds a fresh Orchestrator around the store, as every call site in
`main.py` does) the first non-moderator agent of round 1 is invoked with the
`"(empty)"` board text — its recorded answer is its output on that text. -/
theorem research_board_starts_empty (store : HistoryStore) (role : String)
    (g : AgentFn) (rest : List (String × AgentFn)) (moderator : AgentFn)
    (task : String) (n : Nat) :
    (Orchestrator.mkState store).board = []
  ∧ board_text (Orchestrator.mkState store).board = "(empty)"
  ∧ ((run_research_demo ((role, g) :: rest) moderator (n + 1) task store).1.store.drop
        store.length).head?
      = some ⟨role, g task "(empty)", 0.8, "generated", 1⟩ := by
  refine ⟨rfl, rfl, ?_⟩
  obtain ⟨t1, ht1⟩ := foldl_agents_store_mono task 1 rest
    (agentStep task 1 (Orchestrator.mkState store) role g)
  have hfold : (((role, g) :: rest).foldl (fun s p => agentStep task 1 s p.1 p.2)
        (Orchestrator.mkState store)).store
      = store ++ ⟨role, g task "(empty)", 0.8, "generated", 1⟩ :: t1 := by
    simp only [List.foldl_cons]
    rw [ht1, agentStep_store]
    simp [Orchestrator.mkState, board_text, List.append_assoc]
  have hround := roundStep_store_eq ((role, g) :: rest) moderator task 1
    (Orchestrator.mkState store)
  rw [hfold, List.append_assoc] at hround
  obtain ⟨T0, hT0⟩ : ∃ T0,
      (roundStep ((role, g) :: rest) moderator task 1 (Orchestrator.mkState store)).1.store
        = store ++ ⟨role, g task "(empty)", 0.8, "generated", 1⟩ :: T0 := ⟨_, hround⟩
  have hfin : ∃ T, (run_research_demo ((role, g) :: rest) moderator (n + 1) task store).1.store
      = store ++ ⟨role, g task "(empty)", 0.8, "generated", 1⟩ :: T := by
    show ∃ T, (researchLoop ((role, g) :: rest) moderator task 1 (n + 1)
        (Orchestrator.mkState store)).1.store
      = store ++ ⟨role, g task "(empty)", 0.8, "generated", 1⟩ :: T
    cases hc : isConclusion (roundStep ((role, g) :: rest) moderator task 1
        (Orchestrator.mkState store)).2 with
    | true =>
        refine ⟨T0, ?_⟩
        simp only [researchLoop, hc, if_true]
        exact hT0
    | false =>
        obtain ⟨t2, ht2⟩ := researchLoop_store_mono ((role, g) :: rest) moderator task n 2
          (roundStep ((role, g) :: rest) moderator task 1 (Orchestrator.mkState store)).1
        refine ⟨T0 ++ t2, ?_⟩
        simp only [researchLoop, hc, Bool.false_eq_true, if_false]
        rw [ht2, hT0, List.append_assoc]
        simp
  obtain ⟨T, hT⟩ := hfin
  rw [hT, List.drop_left]
  rfl

/-! ### The store is always ahead of or equal to the board -/

theorem storeCovers_put {b : Board} {s : HistoryStore}
    (h : StoreCovers ⟨b, s⟩) (k : String) (c : Contribution) :
    StoreCovers ⟨boardPut b k c, s.log c⟩ := by
  intro p hp
  rcases List.mem_append.mp hp with h1 | h1
  · exact List.mem_append_left _ (h p (List.mem_of_mem_filter h1))
  · have hpc : p = (k, c) := List.mem_singleton.mp h1
    subst hpc
    exact List.mem_append_right _ (List.mem_singleton.mpr rfl)

theorem storeCovers_log {b : Board} {s : HistoryStore}
    (h : StoreCovers ⟨b, s⟩) (c : Contribution) :
    StoreCovers ⟨b, s.log c⟩ :=
  fun p hp => List.mem_append_left _ (h p hp)

theorem storeCovers_agentStep {st : OrchState} (h : StoreCovers st)
    (task : String) (r : Nat) (role : String) (agent : AgentFn) :
    StoreCovers (agentStep task r st role agent) :=
  storeCovers_put h _ _

theorem storeCovers_foldl (task : String) (r : Nat) :
    ∀ (agents : List (String × AgentFn)) {st : OrchState}, StoreCovers st →
      StoreCovers (agents.foldl (fun s p => agentStep task r s p.1 p.2) st)
  | [], _, h => h
  | p :: ps, st, h => by
      simp only [List.foldl_cons]
      exact storeCovers_foldl task r ps (storeCovers_agentStep h task r p.1 p.2)

theorem storeCovers_roundStep {st : OrchState} (h : StoreCovers st)
    (agents : List (String × AgentFn)) (moderator : AgentFn)
    (task : String) (r : Nat) :
    StoreCovers (roundStep agents moderator task r st).1 :=
  storeCovers_put (storeCovers_foldl task r agents h) _ _

theorem storeCovers_researchLoop (agents : List (String × AgentFn))
    (moderator : AgentFn) (task : String) :
    ∀ (n r : Nat) {st : OrchState}, StoreCovers st →
      StoreCovers (researchLoop agents moderator task r n st).1
  | 0, _, _, h => h
  | n + 1, r, st, h => by
      cases hc : isConclusion (roundStep agents moderator task r st).2 with
      | true =>
          simp only [researchLoop, hc, if_true]
          exact storeCovers_roundStep h agents moderator task r
      | false =>
          simp only [researchLoop, hc, Bool.false_eq_true, if_false]
          exact storeCovers_researchLoop agents moderator task n (r + 1)
            (storeCovers_roundStep h agents moderator task r)

theorem storeCovers_schedule {st : OrchState} (h : StoreCovers st)
    (summarizer extractor : AgentFn) (findSlot : Nat → String)
    (book : String → String → String → Bool) (transcript : String) :
    StoreCovers (run_schedule_optimization summarizer extractor findSlot book
      transcript st).state := by
  cases st with
  | mk b s => exact storeCovers_log (storeCovers_put (storeCovers_put h _ _) _ _) _

/-- C7: whenever a contribution is inserted on the board it has already been
appended to the store, so each atomic step and both whole workflows preserve
the invariant that every contribution held on the board is present in the
store. -/
theorem store_ahead_of_board (task : String) (r n : Nat) (st : OrchState)
    (role : String) (agent : AgentFn) (agents : List (String × AgentFn))
    (moderator : AgentFn) (summarizer extractor : AgentFn)
    (findSlot : Nat → String) (book : String → String → String → Bool)
    (transcript : String) (h : StoreCovers st) :
    StoreCovers (agentStep task r st role agent)
  ∧ StoreCovers (roundStep agents moderator task r st).1
  ∧ StoreCovers (researchLoop agents moderator task r n st).1
  ∧ StoreCovers (run_research_collaboration agents moderator n task st).1
  ∧ StoreCovers (run_schedule_optimization summarizer extractor findSlot book
      transcript st).state :=
  ⟨storeCovers_agentStep h task r role agent,
   storeCovers_roundStep h agents moderator task r,
   storeCovers_researchLoop agents moderator task n r h,
   storeCovers_researchLoop agents moderator task n 1 h,
   storeCovers_schedule h summarizer extractor findSlot book transcript⟩

/-- Witness for C7: the invariant holds at the end of a one-round fake run
from a fresh state. -/
theorem store_ahead_of_board_witness :
    StoreCovers (run_research_collaboration fakeAgents fakeModerator 1 "t" ⟨[], []⟩).1 := by
  have h := store_ahead_of_board "t" 1 1 ⟨[], []⟩ "R" (fun _ _ => "x")
    fakeAgents fakeModerator (fun _ _ => "s") (fun _ _ => "a") (fun _ => "T")
    (fun _ _ _ => true) "tr" (by intro p hp; simp at hp)
  exact h.2.2.2.1

/-- C8: from an empty board, the schedule workflow leaves exactly the
summarizer and extractor entries on the board (no Moderator entry), while
its final step appends a Moderator/conclusion contribution carrying the
report text to the store. -/
theorem schedule_final_step_frame (summarizer extractor : AgentFn)
    (findSlot : Nat → String) (book : String → String → String → Bool)
    (transcript : String) (store : HistoryStore) :
    boardKeys (run_schedule_optimization summarizer extractor findSlot book transcript
        ⟨[], store⟩).state.board
      = ["TranscriptSummarizer-r1", "ActionItemExtractor-r1"]
  ∧ "Moderator-r1" ∉ boardKeys (run_schedule_optimization summarizer extractor findSlot book
        transcript ⟨[], store⟩).state.board
  ∧ (run_schedule_optimization summarizer extractor findSlot book transcript
        ⟨[], store⟩).state.store.getLast?
      = some ⟨"Moderator",
          (run_schedule_optimization summarizer extractor findSlot book transcript
            ⟨[], store⟩).report, 0.9, "conclusion", 1⟩
  ∧ (run_schedule_optimization summarizer extractor findSlot book transcript
        ⟨[], store⟩).state.store.length = store.length + 3 := by
  have h1 : boardKeys (run_schedule_optimization summarizer extractor findSlot book transcript
      ⟨[], store⟩).state.board = ["TranscriptSummarizer-r1", "ActionItemExtractor-r1"] := by
    simp [run_schedule_optimization, boardPut, boardKeys]
  refine ⟨h1, ?_, ?_, ?_⟩
  · rw [h1]
    decide
  · simp [run_schedule_optimization, HistoryStore.log]
  · simp [run_schedule_optimization, HistoryStore.log]

/-! ### Schedule workflow reports -/

theorem success_ne_failure (ti sl : String) :
    ("FAILURE: Could not schedule the meeting." : String)
      ≠ "SUCCESS: Follow-up meeting '" ++ ti ++ "' scheduled for " ++ sl ++ "." := by
  intro h
  have h2 : startsWithStr "FAILURE: Could not schedule the meeting." "F"
      = startsWithStr ("SUCCESS: Follow-up meeting '" ++ ti ++ "' scheduled for "
          ++ sl ++ ".") "F" := by rw [h]
  have hl : startsWithStr "FAILURE: Could not schedule the meeting." "F" = true := by decide
  have hr : startsWithStr ("SUCCESS: Follow-up meeting '" ++ ti ++ "' scheduled for "
      ++ sl ++ ".") "F" = false := rfl
  rw [hl, hr] at h2
  exact Bool.noConfusion h2

/-- C5: with no scheduling keyword in the action-item text neither external
collaborator is invoked and the report is the fixed no-action conclusion;
with a keyword present the title follows the fixed budget/report/default
mapping, both collaborators are invoked, and the report is the success
variant exactly when booking returns true.  The last conjunct ties the
decision step to the full workflow. -/
theorem schedule_branching (findSlot : Nat → String)
    (book : String → String → String → Bool) (summary action_items : String)
    (summarizer extractor : AgentFn) (transcript : String) (st : OrchState) :
    (containsStr (pyLower action_items) "schedule" = false →
     containsStr (pyLower action_items) "finalize" = false →
     containsStr (pyLower action_items) "review" = false →
       scheduleDecision findSlot book summary action_items
         = ("CONCLUSION: No specific scheduling action item was identified.", []))
  ∧ ((containsStr (pyLower action_items) "schedule" = true
        ∨ containsStr (pyLower action_items) "finalize" = true
        ∨ containsStr (pyLower action_items) "review" = true) →
     containsStr (pyLower action_items) "budget" = true →
       scheduleDecision findSlot book summary action_items
         = (if book (findSlot 45) "Finalize Q4 Budget"
                ("Follow-up based on meeting summary: " ++ summary) then
              "SUCCESS: Follow-up meeting '" ++ "Finalize Q4 Budget"
                ++ "' scheduled for " ++ findSlot 45 ++ "."
            else "FAILURE: Could not schedule the meeting.",
            [ExtCall.findSlot 45,
             ExtCall.book (findSlot 45) "Finalize Q4 Budget"
               ("Follow-up based on meeting summary: " ++ summary)])
       ∧ ((scheduleDecision findSlot book summary action_items).1
            = "SUCCESS: Follow-up meeting '" ++ "Finalize Q4 Budget"
                ++ "' scheduled for " ++ findSlot 45 ++ "."
          ↔ book (findSlot 45) "Finalize Q4 Budget"
              ("Follow-up based on meeting summary: " ++ summary) = true))
  ∧ ((containsStr (pyLower action_items) "schedule" = true
        ∨ containsStr (pyLower action_items) "finalize" = true
        ∨ containsStr (pyLower action_items) "review" = true) →
     containsStr (pyLower action_items) "budget" = false →
     containsStr (pyLower action_items) "report" = true →
       scheduleDecision findSlot book summary action_items
         = (if book (findSlot 45) "Review Detailed Report"
                ("Follow-up based on meeting summary: " ++ summary) then
              "SUCCESS: Follow-up meeting '" ++ "Review Detailed Report"
                ++ "' scheduled for " ++ findSlot 45 ++ "."
            else "FAILURE: Could not schedule the meeting.",
            [ExtCall.findSlot 45,
             ExtCall.book (findSlot 45) "Review Detailed Report"
               ("Follow-up based on meeting summary: " ++ summary)])
       ∧ ((scheduleDecision findSlot book summary action_items).1
            = "SUCCESS: Follow-up meeting '" ++ "Review Detailed Report"
                ++ "' scheduled for " ++ findSlot 45 ++ "."
          ↔ book (findSlot 45) "Review Detailed Report"
              ("Follow-up based on meeting summary: " ++ summary) = true))
  ∧ ((containsStr (pyLower action_items) "schedule" = true
        ∨ containsStr (pyLower action_items) "finalize" = true
        ∨ containsStr (pyLower action_items) "review" = true) →
     containsStr (pyLower action_items) "budget" = false →
     containsStr (pyLower action_items) "report" = false →
       scheduleDecision findSlot book summary action_items
         = (if book (findSlot 45) "General Follow-up Meeting"
                ("Follow-up based on meeting summary: " ++ summary) then
              "SUCCESS: Follow-up meeting '" ++ "General Follow-up Meeting"
                ++ "' scheduled for " ++ findSlot 45 ++ "."
            else "FAILURE: Could not schedule the meeting.",
            [ExtCall.findSlot 45,
             ExtCall.book (findSlot 45) "General Follow-up Meeting"
               ("Follow-up based on meeting summary: " ++ summary)])
       ∧ ((scheduleDecision findSlot book summary action_items).1
            = "SUCCESS: Follow-up meeting '" ++ "General Follow-up Meeting"
                ++ "' scheduled for " ++ findSlot 45 ++ "."
          ↔ book (findSlot 45) "General Follow-up Meeting"
              ("Follow-up based on meeting summary: " ++ summary) = true))
  ∧ ((run_schedule_optimization summarizer extractor findSlot book transcript st).report,
     (run_schedule_optimization summarizer extractor findSlot book transcript st).calls)
      = scheduleDecision findSlot book
          (summarizer ("Analyze the following transcript, summarize it, and extract the key action item. Transcript:\n" ++ transcript) transcript)
          (extractor "Based on the transcript and summary, what is the single most important follow-up action item that requires scheduling? Respond with only the action itself."
            (board_text (boardPut st.board "TranscriptSummarizer-r1"
              ⟨"TranscriptSummarizer",
               summarizer ("Analyze the following transcript, summarize it, and extract the key action item. Transcript:\n" ++ transcript) transcript,
               0.8, "generated", 1⟩))) := by
  refine ⟨?_, ?_, ?_, ?_, rfl⟩
  · intro h1 h2 h3
    simp [scheduleDecision, h1, h2, h3]
  · intro hkw hb
    have hcond : (containsStr (pyLower action_items) "schedule"
        || containsStr (pyLower action_items) "finalize"
        || containsStr (pyLower action_items) "review") = true := by
      rcases hkw with h | h | h <;> simp [h]
    constructor
    · simp [scheduleDecision, hcond, hb]
    · cases hbook : book (findSlot 45) "Finalize Q4 Budget"
          ("Follow-up based on meeting summary: " ++ summary) with
      | true => simp [scheduleDecision, hcond, hb, hbook]
      | false =>
          simp [scheduleDecision, hcond, hb, hbook]
          intro hx
          exact success_ne_failure "Finalize Q4 Budget" (findSlot 45) hx
  · intro hkw hb hre
    have hcond : (containsStr (pyLower action_items) "schedule"
        || containsStr (pyLower action_items) "finalize"
        || containsStr (pyLower action_items) "review") = true := by
      rcases hkw with h | h | h <;> simp [h]
    constructor
    · simp [scheduleDecision, hcond, hb, hre]
    · cases hbook : book (findSlot 45) "Review Detailed Report"
          ("Follow-up based on meeting summary: " ++ summary) with
      | true => simp [scheduleDecision, hcond, hb, hre, hbook]
      | false =>
          simp [scheduleDecision, hcond, hb, hre, hbook]
          intro hx
          exact success_ne_failure "Review Detailed Report" (findSlot 45) hx
  · intro hkw hb hre
    have hcond : (containsStr (pyLower action_items) "schedule"
        || containsStr (pyLower action_items) "finalize"
        || containsStr (pyLower action_items) "review") = true := by
      rcases hkw with h | h | h <;> simp [h]
    constructor
    · simp [scheduleDecision, hcond, hb, hre]
    · cases hbook : book (findSlot 45) "General Follow-up Meeting"
          ("Follow-up based on meeting summary: " ++ summary) with
      | true => simp [scheduleDecision, hcond, hb, hre, hbook]
      | false =>
          simp [scheduleDecision, hcond, hb, hre, hbook]
          intro hx
          exact success_ne_failure "General Follow-up Meeting" (findSlot 45) hx

/-- Witness for C5: a budget action item with the "schedule" keyword books
the "Finalize Q4 Budget" meeting and reports success. -/
theorem schedule_branching_witness :
    scheduleDecision (fun _ => "NOON") (fun _ _ _ => true) "sum"
        "Please schedule the budget meeting"
      = ("SUCCESS: Follow-up meeting 'Finalize Q4 Budget' scheduled for NOON.",
         [ExtCall.findSlot 45,
          ExtCall.book "NOON" "Finalize Q4 Budget"
            "Follow-up based on meeting summary: sum"]) := by
  have h := ((schedule_branching (fun _ => "NOON") (fun _ _ _ => true) "sum"
    "Please schedule the budget meeting" (fun _ _ => "s") (fun _ _ => "a") "tr"
    ⟨[], []⟩).2.1 (Or.inl (by decide)) (by decide)).1
  rw [h]
  decide

theorem scheduleDecision_report_ne_failure (findSlot : Nat → String)
    (summary action_items : String) :
    (scheduleDecision findSlot book_calendar_event summary action_items).1
      ≠ "FAILURE: Could not schedule the meeting." := by
  cases hc : (containsStr (pyLower action_items) "schedule"
      || containsStr (pyLower action_items) "finalize"
      || containsStr (pyLower action_items) "review") with
  | true =>
      simp [scheduleDecision, hc, book_calendar_event]
      intro hx
      exact success_ne_failure _ _ hx.symm
  | false =>
      simp [scheduleDecision, hc]

/-- C10: the provided booking collaborator returns true on every input, so
the schedule workflow's FAILURE report is unreachable; whenever a scheduling
keyword is present the report is the success variant naming the derived
title and the slot-finder's slot. -/
theorem booking_always_succeeds (t ti d : String) (findSlot : Nat → String)
    (summary action_items : String) (summarizer extractor : AgentFn)
    (transcript : String) (st : OrchState) :
    book_calendar_event t ti d = true
  ∧ (scheduleDecision findSlot book_calendar_event summary action_items).1
      ≠ "FAILURE: Could not schedule the meeting."
  ∧ ((containsStr (pyLower action_items) "schedule" = true
        ∨ containsStr (pyLower action_items) "finalize" = true
        ∨ containsStr (pyLower action_items) "review" = true) →
      (scheduleDecision findSlot book_calendar_event summary action_items).1
        = "SUCCESS: Follow-up meeting '"
            ++ (if containsStr (pyLower action_items) "budget" then "Finalize Q4 Budget"
                else if containsStr (pyLower action_items) "report" then "Review Detailed Report"
                else "General Follow-up Meeting")
            ++ "' scheduled for " ++ findSlot 45 ++ ".")
  ∧ (run_schedule_optimization summarizer extractor findSlot book_calendar_event
        transcript st).report ≠ "FAILURE: Could not schedule the meeting." := by
  refine ⟨rfl, scheduleDecision_report_ne_failure findSlot summary action_items, ?_, ?_⟩
  · intro hkw
    have hcond : (containsStr (pyLower action_items) "schedule"
        || containsStr (pyLower action_items) "finalize"
        || containsStr (pyLower action_items) "review") = true := by
      rcases hkw with h | h | h <;> simp [h]
    simp [scheduleDecision, hcond, book_calendar_event]
  · exact scheduleDecision_report_ne_failure findSlot _ _

/-- Witness for C10: a budget action item with a keyword yields the success
report naming the derived title and the found slot. -/
theorem booking_always_succeeds_witness :
    (scheduleDecision (fun _ => "NOON") book_calendar_event "sum"
        "Please schedule the budget meeting").1
      = "SUCCESS: Follow-up meeting 'Finalize Q4 Budget' scheduled for NOON." := by
  have h := (booking_always_succeeds "t" "ti" "d" (fun _ => "NOON") "sum"
    "Please schedule the budget meeting" (fun _ _ => "s") (fun _ _ => "a") "tr"
    ⟨[], []⟩).2.2.1 (Or.inl (by decide))
  rw [h]
  decide

/-- C6 (amended): the rule-based agent is deterministic — a task mentioning
the capital of France makes the ResearchBot variant answer a string
containing "Paris"; a task mentioning the capital of India (and not that of
France, whose branch is checked first) makes it answer exactly "New Delhi";
a board text containing "Paris" or "New Delhi" makes the rule-based
Moderator answer a CONCLUSION-prefixed string, so the fake research
workflow concludes in such a round. -/
theorem fake_agent_rules (task board : String) :
    (containsStr (pyLower task) "capital of france" = true →
       containsStr (FakeLLM.generate "ResearchBot" task board) "Paris" = true)
  ∧ (containsStr (pyLower task) "capital of india" = true →
     containsStr (pyLower task) "capital of france" = false →
       FakeLLM.generate "ResearchBot" task board = "New Delhi")
  ∧ ((containsStr board "Paris" = true ∨ containsStr board "New Delhi" = true) →
       startsWithStr (FakeLLM.generate "Moderator" task board) "CONCLUSION:" = true)
  ∧ (run_research_collaboration fakeAgents fakeModerator 1
        "What is the capital of France?" ⟨[], []⟩).2 = "The report is complete." := by
  refine ⟨?_, ?_, ?_, by decide⟩
  · intro h
    simp [FakeLLM.generate, h]
    decide
  · intro h1 h2
    simp [FakeLLM.generate, h2, h1]
  · intro hor
    have hb1 : (board == "") = false := by
      by_cases hbe : board = ""
      · subst hbe
        rcases hor with h | h <;> exact absurd h (by decide)
      · exact beq_eq_false_iff_ne.mpr hbe
    have hb2 : (board == "(empty)") = false := by
      by_cases hbe : board = "(empty)"
      · subst hbe
        rcases hor with h | h <;> exact absurd h (by decide)
      · exact beq_eq_false_iff_ne.mpr hbe
    rcases hor with h | h <;> simp [FakeLLM.generate, hb1, hb2, h] <;> decide

/-- Witness for C6: the India task makes the rule-based ResearchBot answer
exactly "New Delhi". -/
theorem fake_agent_rules_witness :
    FakeLLM.generate "ResearchBot" "What is the capital of India?" "(empty)" = "New Delhi" :=
  (fake_agent_rules "What is the capital of India?" "(empty)").2.1 (by decide) (by decide)

/-- Counterexample for C6 as stated: a task mentioning both capitals takes
the France branch (checked first), so the answer is not "New Delhi" even
though the task contains "capital of india". -/
theorem fake_agent_rules_cex :
    containsStr (pyLower "State the capital of france and the capital of india")
        "capital of india" = true
  ∧ FakeLLM.generate "ResearchBot"
        "State the capital of france and the capital of india" "(empty)"
      ≠ "New Delhi"
  ∧ FakeLLM.generate "ResearchBot"
        "State the capital of france and the capital of india" "(empty)"
      = "Paris is the capital of France, known for the Eiffel Tower." := by
  refine ⟨by decide, by decide, by decide⟩
